import Mathlib

/-!
Shallow embedding of `source/statistics.c` from aws-c-io: the sample record
types (socket and TLS statistics), the statistics-handler chain combinator,
and the TLS timeout watchdog. Machine integers (`uint32_t`, `uint64_t`,
`size_t`) are modelled as `Nat`; the only arithmetic the code performs on
them is comparison and a subtraction that is guarded by a fatal assertion
ensuring non-negativity, so no wraparound can occur on the modelled paths.
Side effects (calling `aws_channel_shutdown`, hitting `AWS_FATAL_ASSERT`,
invoking a member handler, destroying a member handler) are reified as
explicit effect values and call traces.
-/

/-- Enum `aws_tls_negotiation_status` (declared in the repository's headers,
values used by `statistics.c`). -/
inductive aws_tls_negotiation_status where
  | AWS_MTLS_STATUS_NONE
  | AWS_MTLS_STATUS_ONGOING
  | AWS_MTLS_STATUS_SUCCESS
  | AWS_MTLS_STATUS_FAILURE
deriving DecidableEq

/-- Enum `aws_crt_statistics_category`: the discriminant stored in every
statistics record base. -/
inductive aws_crt_statistics_category where
  | AWSCRT_STAT_CAT_SOCKET
  | AWSCRT_STAT_CAT_TLS
deriving DecidableEq

/-- Struct `aws_crt_statistics_sample_interval`: one completed observation
window, with millisecond timestamps. -/
structure aws_crt_statistics_sample_interval where
  begin_time_ms : Nat
  end_time_ms : Nat
deriving DecidableEq

/-- Struct `aws_crt_statistics_socket`: socket byte counters plus the
category tag. -/
structure aws_crt_statistics_socket where
  category : aws_crt_statistics_category
  bytes_read : Nat
  bytes_written : Nat
deriving DecidableEq

/-- Struct `aws_crt_statistics_tls`: the TLS handshake status plus the
category tag. -/
structure aws_crt_statistics_tls where
  category : aws_crt_statistics_category
  handshake_status : aws_tls_negotiation_status
deriving DecidableEq

/-- `aws_crt_statistics_socket_reset`: zeroes `bytes_read` and
`bytes_written`, touching nothing else (statistics.c lines 32-35). -/
def aws_crt_statistics_socket_reset (stats : aws_crt_statistics_socket) :
    aws_crt_statistics_socket :=
  { stats with bytes_read := 0, bytes_written := 0 }

/-- `aws_crt_statistics_tls_reset`: `(void)stats;` — a no-op
(statistics.c lines 49-51). -/
def aws_crt_statistics_tls_reset (stats : aws_crt_statistics_tls) :
    aws_crt_statistics_tls :=
  stats

/-- A record on the `stats_list` as the TLS monitor's dispatch sees it:
a base pointer whose category selects the concrete shape. `other` stands
for any category the `switch` in `s_tls_monitor_process_statistics` does
not recognize (its `default: break;` arm). -/
inductive StatRecord where
  | socket (bytes_read bytes_written : Nat)
  | tls (handshake_status : aws_tls_negotiation_status)
  | other
deriving DecidableEq

/-! ## Chain combinator -/

/-- `UINT64_MAX`, the initial value of the minimum-cadence accumulator in
`aws_statistics_handler_new_chain`. -/
def UINT64_MAX : Nat := 2 ^ 64 - 1

/-- Struct `aws_crt_statistics_handler_chain_impl`, restricted to the cached
cadence; the member list is passed explicitly to the trace functions below. -/
structure aws_crt_statistics_handler_chain_impl where
  report_interval_ms : Nat
deriving DecidableEq

/-- The construction-time fold of `aws_statistics_handler_new_chain`
(statistics.c lines 136-144): starting from `UINT64_MAX`, replace the
accumulator by each member cadence that is strictly smaller. -/
def chainMinFold (cadences : List Nat) : Nat :=
  cadences.foldl (fun m r => if r < m then r else m) UINT64_MAX

/-- `aws_statistics_handler_new_chain`, viewed through the member cadences:
caches the fold result as `report_interval_ms` (statistics.c line 146). -/
def aws_statistics_handler_new_chain (cadences : List Nat) :
    aws_crt_statistics_handler_chain_impl :=
  { report_interval_ms := chainMinFold cadences }

/-- `s_chain_get_report_interval_ms`: returns the cached cadence
(statistics.c lines 101-104). -/
def s_chain_get_report_interval_ms
    (impl : aws_crt_statistics_handler_chain_impl) : Nat :=
  impl.report_interval_ms

/-- One invocation of a member handler's `process_statistics`, with the
arguments it receives. `H` is the member handler's identity, `C` the opaque
`void *context`. -/
structure ProcessCall (H C : Type) where
  handler : H
  interval : aws_crt_statistics_sample_interval
  stats_list : List StatRecord
  context : C
deriving DecidableEq

/-- `s_chain_process_statistics` (statistics.c lines 58-75), as the trace of
member invocations its loop performs. A member slot holds `some h` for a
live handler or `none` for a NULL pointer. Modelled from the spec: the
dispatch wrapper `aws_crt_statistics_handler_process_statistics` is declared
in a header outside `src/`; per the spec a NULL/absent member is skipped
silently, and an in-range `aws_array_list_get_at` on the snapshot length
always succeeds, so a slot contributes a call exactly when it is non-NULL. -/
def s_chain_process_statistics {H C : Type} :
    List (Option H) → aws_crt_statistics_sample_interval →
    List StatRecord → C → List (ProcessCall H C)
  | [], _, _, _ => []
  | none :: rest, interval, stats_list, context =>
      s_chain_process_statistics rest interval stats_list context
  | some h :: rest, interval, stats_list, context =>
      ⟨h, interval, stats_list, context⟩ ::
        s_chain_process_statistics rest interval stats_list context

/-- The observable steps of `s_chain_destroy`: destroying one member,
releasing the member array (`aws_array_list_clean_up`), and releasing the
chain's own storage (`aws_mem_release`). -/
inductive ChainDestroyEvent (H : Type) where
  | destroyMember (h : H)
  | cleanUpList
  | releaseSelf
deriving DecidableEq

/-- The member-destruction loop of `s_chain_destroy` (statistics.c lines
85-93). Modelled from the spec: `aws_crt_statistics_handler_destroy` is
declared outside `src/` and, per the spec's single-ownership contract, a
NULL member is a silent no-op, so a `none` slot emits no event. -/
def chainDestroyMembers {H : Type} :
    List (Option H) → List (ChainDestroyEvent H)
  | [] => []
  | none :: rest => chainDestroyMembers rest
  | some h :: rest =>
      ChainDestroyEvent.destroyMember h :: chainDestroyMembers rest

/-- `s_chain_destroy` (statistics.c lines 77-99) on a chain whose impl is
present: destroy each member in slot order, then clean up the member list,
then release the chain's own storage. -/
def s_chain_destroy {H : Type} (members : List (Option H)) :
    List (ChainDestroyEvent H) :=
  chainDestroyMembers members ++
    [ChainDestroyEvent.cleanUpList, ChainDestroyEvent.releaseSelf]

/-! ## TLS timeout watchdog -/

/-- The channel error codes `statistics.c` can pass to
`aws_channel_shutdown`; only the TLS-timeout code appears. -/
inductive IoErrorCode where
  | AWS_IO_CHANNEL_TLS_TIMEOUT
deriving DecidableEq

/-- The externally visible outcome of one `s_tls_monitor_process_statistics`
call: return normally, abort via `AWS_FATAL_ASSERT`, or call
`aws_channel_shutdown` with an error code. -/
inductive TlsMonitorEffect where
  | noEffect
  | fatalAssert
  | shutdown (error_code : IoErrorCode)
deriving DecidableEq

/-- Struct `aws_statistics_handler_tls_monitor_impl`
(statistics.c lines 163-166). -/
structure aws_statistics_handler_tls_monitor_impl where
  tls_timeout_ms : Nat
  tls_start_time_ms : Nat
deriving DecidableEq

/-- Struct `aws_tls_monitor_options`: the watchdog's configuration. -/
structure aws_tls_monitor_options where
  tls_timeout_ms : Nat
deriving DecidableEq

/-- `aws_crt_statistics_handler_new_tls_monitor` (statistics.c lines
241-266): zeroes the impl, then copies `tls_timeout_ms` from the options. -/
def aws_crt_statistics_handler_new_tls_monitor
    (options : aws_tls_monitor_options) :
    aws_statistics_handler_tls_monitor_impl :=
  { tls_timeout_ms := options.tls_timeout_ms, tls_start_time_ms := 0 }

/-- `s_tls_monitor_get_report_interval_ms`: the fixed 1000 ms cadence
(statistics.c lines 229-233). -/
def s_tls_monitor_get_report_interval_ms : Nat := 1000

/-- One iteration of the record-scan loop in
`s_tls_monitor_process_statistics` (statistics.c lines 178-198), acting on
the pair (local `tls_status`, field `tls_start_time_ms`): a TLS-category
record overwrites `tls_status` and, when that status is not NONE and the
start field is still 0, stamps the start field with the interval's
`end_time_ms`; every other category is ignored. -/
def tlsScanStep (end_time_ms : Nat)
    (acc : aws_tls_negotiation_status × Nat) (r : StatRecord) :
    aws_tls_negotiation_status × Nat :=
  match r with
  | .tls st =>
      (st, if st ≠ .AWS_MTLS_STATUS_NONE ∧ acc.2 = 0 then end_time_ms
           else acc.2)
  | _ => acc

/-- `s_tls_monitor_process_statistics` (statistics.c lines 168-219):
scan the records, then apply the timeout guards in source order. Returns
the updated impl state and the reified effect. -/
def s_tls_monitor_process_statistics
    (impl : aws_statistics_handler_tls_monitor_impl)
    (interval : aws_crt_statistics_sample_interval)
    (stats_list : List StatRecord) :
    aws_statistics_handler_tls_monitor_impl × TlsMonitorEffect :=
  let scan := stats_list.foldl (tlsScanStep interval.end_time_ms)
    (.AWS_MTLS_STATUS_NONE, impl.tls_start_time_ms)
  let implAfter := { impl with tls_start_time_ms := scan.2 }
  if impl.tls_timeout_ms = 0 ∨ scan.1 ≠ .AWS_MTLS_STATUS_ONGOING then
    (implAfter, .noEffect)
  else if interval.end_time_ms < implAfter.tls_start_time_ms then
    (implAfter, .fatalAssert)
  else if interval.end_time_ms - implAfter.tls_start_time_ms <
      impl.tls_timeout_ms then
    (implAfter, .noEffect)
  else
    (implAfter, .shutdown .AWS_IO_CHANNEL_TLS_TIMEOUT)

/-- A sequence of deliveries to the watchdog: fold
`s_tls_monitor_process_statistics` over the calls, collecting the per-call
effects in order. -/
def tlsMonitorRun (impl : aws_statistics_handler_tls_monitor_impl) :
    List (aws_crt_statistics_sample_interval × List StatRecord) →
    aws_statistics_handler_tls_monitor_impl × List TlsMonitorEffect
  | [] => (impl, [])
  | (interval, stats_list) :: rest =>
      let step := s_tls_monitor_process_statistics impl interval stats_list
      let tail := tlsMonitorRun step.1 rest
      (tail.1, step.2 :: tail.2)

/-- The value the scan loop's local `tls_status` holds after the loop: the
status of the last TLS-category record in the list, or NONE when there is
none ("last one wins"). -/
def lastTlsStatus (stats_list : List StatRecord) :
    aws_tls_negotiation_status :=
  stats_list.foldl
    (fun acc r => match r with | .tls st => st | _ => acc)
    .AWS_MTLS_STATUS_NONE

/-- Whether the record list contains a TLS-category record with a non-NONE
handshake status, i.e. whether the scan can stamp the start field. -/
def observesHandshake (stats_list : List StatRecord) : Bool :=
  stats_list.any (fun r =>
    match r with
    | .tls .AWS_MTLS_STATUS_NONE => false
    | .tls _ => true
    | _ => false)

/-! ## Helper lemmas: chain cadence fold -/

theorem chainFold_step_eq_min (cs : List Nat) (a : Nat) :
    cs.foldl (fun m r => if r < m then r else m) a = cs.foldl Nat.min a := by
  induction cs generalizing a with
  | nil => rfl
  | cons c rest ih =>
    simp only [List.foldl]
    rw [ih]
    congr 1
    unfold Nat.min
    split <;> omega

theorem foldl_min_le_init (cs : List Nat) (a : Nat) :
    cs.foldl Nat.min a ≤ a := by
  induction cs generalizing a with
  | nil => exact Nat.le_refl a
  | cons c rest ih =>
    exact Nat.le_trans (ih (Nat.min a c)) (Nat.min_le_left a c)

theorem foldl_min_le_mem (cs : List Nat) (a : Nat) :
    ∀ x ∈ cs, cs.foldl Nat.min a ≤ x := by
  induction cs generalizing a with
  | nil => intro x hx; cases hx
  | cons c rest ih =>
    intro x hx
    rcases List.mem_cons.mp hx with rfl | hx
    · exact Nat.le_trans (foldl_min_le_init rest (Nat.min a x))
        (Nat.min_le_right a x)
    · exact ih (Nat.min a c) x hx

theorem nat_min_cases (a c : Nat) : Nat.min a c = a ∨ Nat.min a c = c := by
  unfold Nat.min
  omega

theorem nat_min_eq_right_of_le (a c : Nat) (h : c ≤ a) : Nat.min a c = c := by
  unfold Nat.min
  omega

theorem foldl_min_mem (cs : List Nat) (a : Nat) :
    cs.foldl Nat.min a = a ∨ cs.foldl Nat.min a ∈ cs := by
  induction cs generalizing a with
  | nil => exact Or.inl rfl
  | cons c rest ih =>
    simp only [List.foldl]
    rcases ih (Nat.min a c) with h | h
    · rcases nat_min_cases a c with hm | hm
      · exact Or.inl (h.trans hm)
      · exact Or.inr (by rw [h, hm]; exact List.mem_cons_self c rest)
    · exact Or.inr (List.mem_cons_of_mem c h)

/-! ## Claim theorems about the chain combinator -/

/-- C2: a chain built from a non-empty list of handlers with cadences
`c :: cs` reports, from `get_report_interval_ms`, exactly the minimum of
those cadences (computed once at construction): the result equals the
left fold of `Nat.min` over the cadences, is itself one of the cadences,
and is a lower bound of them all. The hypothesis records that each cadence
is a `uint64_t` value. -/
theorem chain_report_interval_is_min (c : Nat) (cs : List Nat)
    (hbound : ∀ x ∈ c :: cs, x ≤ UINT64_MAX) :
    s_chain_get_report_interval_ms (aws_statistics_handler_new_chain (c :: cs))
        = List.foldl Nat.min c cs
    ∧ s_chain_get_report_interval_ms (aws_statistics_handler_new_chain (c :: cs))
        ∈ c :: cs
    ∧ ∀ x ∈ c :: cs,
        s_chain_get_report_interval_ms (aws_statistics_handler_new_chain (c :: cs))
          ≤ x := by
  have hc : c ≤ UINT64_MAX := hbound c (List.mem_cons_self c cs)
  have hval : s_chain_get_report_interval_ms
      (aws_statistics_handler_new_chain (c :: cs)) = List.foldl Nat.min c cs := by
    show chainMinFold (c :: cs) = List.foldl Nat.min c cs
    unfold chainMinFold
    rw [chainFold_step_eq_min]
    simp only [List.foldl]
    rw [nat_min_eq_right_of_le _ _ hc]
  refine ⟨hval, ?_, ?_⟩
  · rw [hval]
    rcases foldl_min_mem cs c with h | h
    · rw [h]; exact List.mem_cons_self c cs
    · exact List.mem_cons_of_mem c h
  · intro x hx
    rw [hval]
    rcases List.mem_cons.mp hx with rfl | hx
    · exact foldl_min_le_init cs x
    · exact foldl_min_le_mem cs c x hx

/-- C2 witness: a concrete three-member chain with cadences
`[1000, 250, 500]` reports 250. -/
theorem chain_report_interval_is_min_witness :
    s_chain_get_report_interval_ms
        (aws_statistics_handler_new_chain [1000, 250, 500]) = 250 := by
  have h := chain_report_interval_is_min 1000 [250, 500] (by decide)
  exact h.1.trans (by decide)

/-- C10: a chain constructed from an empty member list reports a cadence of
exactly `UINT64_MAX = 2^64 - 1`, because the minimum accumulator is never
updated. -/
theorem chain_empty_report_interval :
    s_chain_get_report_interval_ms (aws_statistics_handler_new_chain [])
      = 2 ^ 64 - 1 := rfl

/-- C7: the chain's process loop invokes each non-NULL member with the
identical interval, record list and context, in slot (construction) order;
NULL slots are skipped silently and do not affect delivery to the remaining
members: the call trace is exactly the non-NULL members, in order, each
paired with the same three arguments. -/
theorem chain_process_fanout {H C : Type} (members : List (Option H))
    (interval : aws_crt_statistics_sample_interval)
    (stats_list : List StatRecord) (context : C) :
    s_chain_process_statistics members interval stats_list context
      = (members.filterMap id).map
          (fun h => ProcessCall.mk h interval stats_list context) := by
  induction members with
  | nil => rfl
  | cons m rest ih =>
    cases m with
    | none => simpa [s_chain_process_statistics, List.filterMap_cons] using ih
    | some h => simpa [s_chain_process_statistics, List.filterMap_cons] using ih

theorem chainDestroyMembers_count {H : Type} [DecidableEq H]
    (members : List (Option H)) (h : H) :
    (chainDestroyMembers members).count (ChainDestroyEvent.destroyMember h)
      = members.count (some h) := by
  induction members with
  | nil => rfl
  | cons m rest ih =>
    cases m with
    | none =>
      simp only [chainDestroyMembers, List.count_cons, ih]
      simp
    | some x =>
      by_cases hx : x = h
      · subst hx
        simp [chainDestroyMembers, List.count_cons, ih]
      · simp [chainDestroyMembers, List.count_cons, ih, hx]

theorem chainDestroyMembers_eq_filterMap {H : Type}
    (members : List (Option H)) :
    chainDestroyMembers members
      = (members.filterMap id).map ChainDestroyEvent.destroyMember := by
  induction members with
  | nil => rfl
  | cons m rest ih =>
    cases m with
    | none => simpa [chainDestroyMembers, List.filterMap_cons] using ih
    | some h => simpa [chainDestroyMembers, List.filterMap_cons] using ih

/-- C8: destroying a chain destroys every member exactly once — for each
handler `h`, the number of destroy calls on `h` equals the number of slots
holding `h`, for every member count including zero — and the full event
trace destroys the non-NULL members in slot order before releasing the
member list and then the chain's own storage. -/
theorem chain_destroy_each_member_once {H : Type} [DecidableEq H]
    (members : List (Option H)) :
    (∀ h : H,
      (s_chain_destroy members).count (ChainDestroyEvent.destroyMember h)
        = members.count (some h))
    ∧ s_chain_destroy members
        = (members.filterMap id).map ChainDestroyEvent.destroyMember
            ++ [ChainDestroyEvent.cleanUpList, ChainDestroyEvent.releaseSelf] := by
  constructor
  · intro h
    unfold s_chain_destroy
    rw [List.count_append, chainDestroyMembers_count]
    simp
  · unfold s_chain_destroy
    rw [chainDestroyMembers_eq_filterMap]

/-- C9: socket-record reset zeroes `bytes_read` and `bytes_written` and is
idempotent, and TLS-record reset is the identity — in particular it never
clears `handshake_status`. -/
theorem socket_reset_zeroes_idempotent_tls_reset_noop :
    (∀ s : aws_crt_statistics_socket,
        (aws_crt_statistics_socket_reset s).bytes_read = 0
        ∧ (aws_crt_statistics_socket_reset s).bytes_written = 0
        ∧ aws_crt_statistics_socket_reset (aws_crt_statistics_socket_reset s)
            = aws_crt_statistics_socket_reset s)
    ∧ (∀ t : aws_crt_statistics_tls,
        aws_crt_statistics_tls_reset t = t
        ∧ (aws_crt_statistics_tls_reset t).handshake_status
            = t.handshake_status) :=
  ⟨fun _ => ⟨rfl, rfl, rfl⟩, fun _ => ⟨rfl, rfl⟩⟩

/-! ## Helper lemmas: the TLS monitor's record scan -/

theorem tlsScan_fst (e : Nat) (sl : List StatRecord)
    (a : aws_tls_negotiation_status) (b : Nat) :
    (sl.foldl (tlsScanStep e) (a, b)).1
      = sl.foldl
          (fun acc r => match r with | .tls st => st | _ => acc) a := by
  induction sl generalizing a b with
  | nil => rfl
  | cons r rest ih =>
    cases r with
    | tls st => simpa [tlsScanStep] using ih st _
    | socket br bw => simpa [tlsScanStep] using ih a b
    | other => simpa [tlsScanStep] using ih a b

theorem tlsScan_fst_lastTlsStatus (e : Nat) (sl : List StatRecord) (b : Nat) :
    (sl.foldl (tlsScanStep e) (.AWS_MTLS_STATUS_NONE, b)).1
      = lastTlsStatus sl :=
  tlsScan_fst e sl .AWS_MTLS_STATUS_NONE b

theorem tlsScan_snd_of_ne_zero (e : Nat) (sl : List StatRecord)
    (a : aws_tls_negotiation_status) (b : Nat) (hb : b ≠ 0) :
    (sl.foldl (tlsScanStep e) (a, b)).2 = b := by
  induction sl generalizing a with
  | nil => rfl
  | cons r rest ih =>
    cases r with
    | tls st => simpa [tlsScanStep, hb] using ih st
    | socket br bw => simpa [tlsScanStep] using ih a
    | other => simpa [tlsScanStep] using ih a

theorem tlsScan_snd_from_e (e : Nat) (sl : List StatRecord)
    (a : aws_tls_negotiation_status) :
    (sl.foldl (tlsScanStep e) (a, e)).2 = e := by
  induction sl generalizing a with
  | nil => rfl
  | cons r rest ih =>
    cases r with
    | tls st =>
      by_cases hc : st ≠ aws_tls_negotiation_status.AWS_MTLS_STATUS_NONE ∧ e = 0
      · simpa [tlsScanStep, hc] using ih st
      · simpa [tlsScanStep, hc] using ih st
    | socket br bw => simpa [tlsScanStep] using ih a
    | other => simpa [tlsScanStep] using ih a

theorem tlsScan_snd_no_observe (e : Nat) (sl : List StatRecord)
    (a : aws_tls_negotiation_status) (b : Nat)
    (h : observesHandshake sl = false) :
    (sl.foldl (tlsScanStep e) (a, b)).2 = b := by
  induction sl generalizing a with
  | nil => rfl
  | cons r rest ih =>
    rw [observesHandshake, List.any_cons, Bool.or_eq_false_iff] at h
    cases r with
    | tls st =>
      cases st with
      | AWS_MTLS_STATUS_NONE =>
        simpa [tlsScanStep] using ih _ h.2
      | AWS_MTLS_STATUS_ONGOING => simp at h
      | AWS_MTLS_STATUS_SUCCESS => simp at h
      | AWS_MTLS_STATUS_FAILURE => simp at h
    | socket br bw => simpa [tlsScanStep] using ih _ h.2
    | other => simpa [tlsScanStep] using ih _ h.2

theorem tlsScan_snd_stamps (e : Nat) (sl : List StatRecord)
    (a : aws_tls_negotiation_status)
    (h : observesHandshake sl = true) :
    (sl.foldl (tlsScanStep e) (a, 0)).2 = e := by
  induction sl generalizing a with
  | nil => simp [observesHandshake] at h
  | cons r rest ih =>
    rw [observesHandshake, List.any_cons, Bool.or_eq_true] at h
    cases r with
    | tls st =>
      cases st with
      | AWS_MTLS_STATUS_NONE =>
        have hrest : observesHandshake rest = true := by
          rcases h with h | h
          · simp at h
          · exact h
        simpa [tlsScanStep] using ih _ hrest
      | AWS_MTLS_STATUS_ONGOING =>
        simpa [tlsScanStep] using tlsScan_snd_from_e e rest _
      | AWS_MTLS_STATUS_SUCCESS =>
        simpa [tlsScanStep] using tlsScan_snd_from_e e rest _
      | AWS_MTLS_STATUS_FAILURE =>
        simpa [tlsScanStep] using tlsScan_snd_from_e e rest _
    | socket br bw =>
      have hrest : observesHandshake rest = true := by
        rcases h with h | h
        · simp at h
        · exact h
      simpa [tlsScanStep] using ih _ hrest
    | other =>
      have hrest : observesHandshake rest = true := by
        rcases h with h | h
        · simp at h
        · exact h
      simpa [tlsScanStep] using ih _ hrest

/-! ## Helper lemmas: one `process` call and runs of calls -/

theorem process_fst_eq (impl : aws_statistics_handler_tls_monitor_impl)
    (interval : aws_crt_statistics_sample_interval)
    (stats_list : List StatRecord) :
    (s_tls_monitor_process_statistics impl interval stats_list).1
      = { impl with
          tls_start_time_ms :=
            (stats_list.foldl (tlsScanStep interval.end_time_ms)
              (.AWS_MTLS_STATUS_NONE, impl.tls_start_time_ms)).2 } := by
  unfold s_tls_monitor_process_statistics
  dsimp only
  split
  · rfl
  · split
    · rfl
    · split
      · rfl
      · rfl

theorem process_timeout_preserved
    (impl : aws_statistics_handler_tls_monitor_impl)
    (interval : aws_crt_statistics_sample_interval)
    (stats_list : List StatRecord) :
    (s_tls_monitor_process_statistics impl interval stats_list).1.tls_timeout_ms
      = impl.tls_timeout_ms := by
  rw [process_fst_eq]

theorem process_start_preserved_of_ne_zero
    (impl : aws_statistics_handler_tls_monitor_impl)
    (interval : aws_crt_statistics_sample_interval)
    (stats_list : List StatRecord) (h : impl.tls_start_time_ms ≠ 0) :
    (s_tls_monitor_process_statistics impl interval stats_list).1.tls_start_time_ms
      = impl.tls_start_time_ms := by
  rw [process_fst_eq]
  exact tlsScan_snd_of_ne_zero _ _ _ _ h

theorem process_start_preserved_no_observe
    (impl : aws_statistics_handler_tls_monitor_impl)
    (interval : aws_crt_statistics_sample_interval)
    (stats_list : List StatRecord) (h : observesHandshake stats_list = false) :
    (s_tls_monitor_process_statistics impl interval stats_list).1.tls_start_time_ms
      = impl.tls_start_time_ms := by
  rw [process_fst_eq]
  exact tlsScan_snd_no_observe _ _ _ _ h

theorem process_start_stamps
    (impl : aws_statistics_handler_tls_monitor_impl)
    (interval : aws_crt_statistics_sample_interval)
    (stats_list : List StatRecord) (h0 : impl.tls_start_time_ms = 0)
    (h : observesHandshake stats_list = true) :
    (s_tls_monitor_process_statistics impl interval stats_list).1.tls_start_time_ms
      = interval.end_time_ms := by
  rw [process_fst_eq]
  simp only [h0]
  exact tlsScan_snd_stamps _ _ _ h

theorem process_disabled_noEffect
    (impl : aws_statistics_handler_tls_monitor_impl)
    (interval : aws_crt_statistics_sample_interval)
    (stats_list : List StatRecord) (h : impl.tls_timeout_ms = 0) :
    (s_tls_monitor_process_statistics impl interval stats_list).2
      = TlsMonitorEffect.noEffect := by
  unfold s_tls_monitor_process_statistics
  rw [if_pos (Or.inl h)]

theorem process_not_ongoing_noEffect
    (impl : aws_statistics_handler_tls_monitor_impl)
    (interval : aws_crt_statistics_sample_interval)
    (stats_list : List StatRecord)
    (h : lastTlsStatus stats_list ≠ .AWS_MTLS_STATUS_ONGOING) :
    (s_tls_monitor_process_statistics impl interval stats_list).2
      = TlsMonitorEffect.noEffect := by
  unfold s_tls_monitor_process_statistics
  rw [if_pos (Or.inr (by
    rw [tlsScan_fst_lastTlsStatus]
    exact h))]

theorem run_all_noEffect_of_disabled
    (impl : aws_statistics_handler_tls_monitor_impl)
    (calls : List (aws_crt_statistics_sample_interval × List StatRecord))
    (h : impl.tls_timeout_ms = 0) :
    ∀ e ∈ (tlsMonitorRun impl calls).2, e = TlsMonitorEffect.noEffect := by
  induction calls generalizing impl with
  | nil => intro e he; cases he
  | cons c rest ih =>
    intro e he
    rw [tlsMonitorRun] at he
    rcases List.mem_cons.mp he with rfl | he
    · exact process_disabled_noEffect impl c.1 c.2 h
    · exact ih _ ((process_timeout_preserved impl c.1 c.2).trans h) e he

theorem run_all_noEffect_of_not_ongoing
    (impl : aws_statistics_handler_tls_monitor_impl)
    (calls : List (aws_crt_statistics_sample_interval × List StatRecord))
    (h : ∀ c ∈ calls, lastTlsStatus c.2 ≠ .AWS_MTLS_STATUS_ONGOING) :
    ∀ e ∈ (tlsMonitorRun impl calls).2, e = TlsMonitorEffect.noEffect := by
  induction calls generalizing impl with
  | nil => intro e he; cases he
  | cons c rest ih =>
    intro e he
    rw [tlsMonitorRun] at he
    rcases List.mem_cons.mp he with rfl | he
    · exact process_not_ongoing_noEffect impl c.1 c.2
        (h c (List.mem_cons_self c rest))
    · exact ih _ (fun d hd => h d (List.mem_cons_of_mem c hd)) e he

theorem run_fst_append
    (impl : aws_statistics_handler_tls_monitor_impl)
    (l1 l2 : List (aws_crt_statistics_sample_interval × List StatRecord)) :
    (tlsMonitorRun impl (l1 ++ l2)).1
      = (tlsMonitorRun (tlsMonitorRun impl l1).1 l2).1 := by
  induction l1 generalizing impl with
  | nil => rfl
  | cons c rest ih =>
    rw [List.cons_append, tlsMonitorRun, tlsMonitorRun]
    exact ih _

theorem run_start_preserved_no_observe
    (impl : aws_statistics_handler_tls_monitor_impl)
    (calls : List (aws_crt_statistics_sample_interval × List StatRecord))
    (h : ∀ c ∈ calls, observesHandshake c.2 = false) :
    (tlsMonitorRun impl calls).1.tls_start_time_ms
      = impl.tls_start_time_ms := by
  induction calls generalizing impl with
  | nil => rfl
  | cons c rest ih =>
    rw [tlsMonitorRun]
    exact (ih _ (fun d hd => h d (List.mem_cons_of_mem c hd))).trans
      (process_start_preserved_no_observe impl c.1 c.2
        (h c (List.mem_cons_self c rest)))

theorem run_start_preserved_of_ne_zero
    (impl : aws_statistics_handler_tls_monitor_impl)
    (calls : List (aws_crt_statistics_sample_interval × List StatRecord))
    (h : impl.tls_start_time_ms ≠ 0) :
    (tlsMonitorRun impl calls).1.tls_start_time_ms
      = impl.tls_start_time_ms := by
  induction calls generalizing impl with
  | nil => rfl
  | cons c rest ih =>
    rw [tlsMonitorRun]
    have hp := process_start_preserved_of_ne_zero impl c.1 c.2 h
    exact (ih _ (by rw [hp]; exact h)).trans hp

/-! ## Claim theorems about the TLS watchdog -/

/-- C1: whenever `tls_timeout_ms` is non-zero, the last-observed TLS
handshake status in the record list is Ongoing, and the interval's
`end_time_ms` minus the (post-scan) `tls_start_time_ms` field is at least
the timeout, the process call shuts the channel down with the TLS-timeout
error code; and on the concrete scenario with end-times `[100, 600, 1200]`,
all statuses Ongoing and `tls_timeout_ms = 1000`, the start time stamps at
100, the first two calls have no effect (elapsed 0 and 500), and the third
call (elapsed 1100) is exactly the one shutdown, with the TLS-timeout
error code. -/
theorem tls_monitor_timeout_triggers_shutdown :
    (∀ (impl : aws_statistics_handler_tls_monitor_impl)
       (interval : aws_crt_statistics_sample_interval)
       (stats_list : List StatRecord),
       impl.tls_timeout_ms ≠ 0 →
       lastTlsStatus stats_list = .AWS_MTLS_STATUS_ONGOING →
       impl.tls_timeout_ms ≤ interval.end_time_ms -
         (s_tls_monitor_process_statistics impl interval
           stats_list).1.tls_start_time_ms →
       (s_tls_monitor_process_statistics impl interval stats_list).2
         = TlsMonitorEffect.shutdown IoErrorCode.AWS_IO_CHANNEL_TLS_TIMEOUT)
    ∧ tlsMonitorRun (aws_crt_statistics_handler_new_tls_monitor ⟨1000⟩)
        [(⟨0, 100⟩, [.tls .AWS_MTLS_STATUS_ONGOING]),
         (⟨100, 600⟩, [.tls .AWS_MTLS_STATUS_ONGOING]),
         (⟨600, 1200⟩, [.tls .AWS_MTLS_STATUS_ONGOING])]
      = (⟨1000, 100⟩,
         [TlsMonitorEffect.noEffect, TlsMonitorEffect.noEffect,
          TlsMonitorEffect.shutdown IoErrorCode.AWS_IO_CHANNEL_TLS_TIMEOUT])
    ∧ (s_tls_monitor_process_statistics
        (aws_crt_statistics_handler_new_tls_monitor ⟨1000⟩) ⟨0, 100⟩
        [.tls .AWS_MTLS_STATUS_ONGOING]).1.tls_start_time_ms = 100 := by
  refine ⟨?_, by decide, by decide⟩
  intro impl interval stats_list h1 h2 h3
  rw [process_fst_eq] at h3
  dsimp only at h3
  unfold s_tls_monitor_process_statistics
  dsimp only
  split
  · rename_i hcond
    exfalso
    rcases hcond with h | h
    · exact h1 h
    · exact h (by rw [tlsScan_fst_lastTlsStatus]; exact h2)
  · split
    · rename_i hcond hlt
      exfalso
      omega
    · split
      · rename_i hcond hge hlt2
        exfalso
        omega
      · rfl

/-- C1 witness: a watchdog with timeout 1000 ms whose start field holds 100,
delivered an interval ending at 1200 with an Ongoing TLS record, shuts the
channel down with the TLS-timeout error code. -/
theorem tls_monitor_timeout_triggers_shutdown_witness :
    (s_tls_monitor_process_statistics ⟨1000, 100⟩ ⟨600, 1200⟩
        [.tls .AWS_MTLS_STATUS_ONGOING]).2
      = TlsMonitorEffect.shutdown IoErrorCode.AWS_IO_CHANNEL_TLS_TIMEOUT :=
  tls_monitor_timeout_triggers_shutdown.1 ⟨1000, 100⟩ ⟨600, 1200⟩
    [.tls .AWS_MTLS_STATUS_ONGOING] (by decide) (by decide) (by decide)

/-- C5: a watchdog constructed with `tls_timeout_ms = 0` never invokes the
channel's shutdown operation, for every sequence of process calls, every
sequence of handshake statuses and every amount of elapsed time. -/
theorem tls_monitor_disabled_never_shutdown
    (options : aws_tls_monitor_options)
    (calls : List (aws_crt_statistics_sample_interval × List StatRecord))
    (h : options.tls_timeout_ms = 0) :
    ∀ e ∈ (tlsMonitorRun
        (aws_crt_statistics_handler_new_tls_monitor options) calls).2,
      ∀ code, e ≠ TlsMonitorEffect.shutdown code := by
  intro e he code
  have hne := run_all_noEffect_of_disabled
    (aws_crt_statistics_handler_new_tls_monitor options) calls h e he
  rw [hne]
  intro hcontra
  cases hcontra

/-- C5 witness: with timeout 0 and two Ongoing intervals whose nominal
elapsed time is huge, the effect the run actually produced at each call —
`noEffect`, a member of the run's effect list — is not a shutdown. -/
theorem tls_monitor_disabled_never_shutdown_witness :
    (⟨0⟩ : aws_tls_monitor_options).tls_timeout_ms = 0
    ∧ TlsMonitorEffect.noEffect
        ∈ (tlsMonitorRun (aws_crt_statistics_handler_new_tls_monitor ⟨0⟩)
            [(⟨0, 100⟩, [.tls .AWS_MTLS_STATUS_ONGOING]),
             (⟨100, 1000000⟩, [.tls .AWS_MTLS_STATUS_ONGOING])]).2
    ∧ TlsMonitorEffect.noEffect
        ≠ TlsMonitorEffect.shutdown IoErrorCode.AWS_IO_CHANNEL_TLS_TIMEOUT :=
  ⟨by decide, by decide,
    tls_monitor_disabled_never_shutdown ⟨0⟩
      [(⟨0, 100⟩, [.tls .AWS_MTLS_STATUS_ONGOING]),
       (⟨100, 1000000⟩, [.tls .AWS_MTLS_STATUS_ONGOING])] (by decide)
      TlsMonitorEffect.noEffect (by decide)
      IoErrorCode.AWS_IO_CHANNEL_TLS_TIMEOUT⟩

/-- C6: from any watchdog state — in particular one reached after a
handshake that went Ongoing → Success before the timeout elapsed — a
sequence of process calls in each of which the last-observed TLS status is
not Ongoing never triggers shutdown, no matter how large the nominal
elapsed time (the timeout guard requires status Ongoing at check time). -/
theorem tls_monitor_inert_when_not_ongoing
    (impl : aws_statistics_handler_tls_monitor_impl)
    (calls : List (aws_crt_statistics_sample_interval × List StatRecord))
    (h : ∀ c ∈ calls,
      lastTlsStatus c.2 ≠ aws_tls_negotiation_status.AWS_MTLS_STATUS_ONGOING) :
    ∀ e ∈ (tlsMonitorRun impl calls).2,
      ∀ code, e ≠ TlsMonitorEffect.shutdown code := by
  intro e he code
  have hne := run_all_noEffect_of_not_ongoing impl calls h e he
  rw [hne]
  intro hcontra
  cases hcontra

/-- C6 witness: a watchdog that stamped its start at 100 with timeout
1000 ms and then only sees Success records — even at end-time 10^6 with
nominal elapsed time far past the timeout — produces only `noEffect`, and
that effect, a member of the run's effect list, is not a shutdown. -/
theorem tls_monitor_inert_when_not_ongoing_witness :
    lastTlsStatus [.tls .AWS_MTLS_STATUS_SUCCESS]
        ≠ aws_tls_negotiation_status.AWS_MTLS_STATUS_ONGOING
    ∧ TlsMonitorEffect.noEffect
        ∈ (tlsMonitorRun ⟨1000, 100⟩
            [(⟨100, 600⟩, [.tls .AWS_MTLS_STATUS_SUCCESS]),
             (⟨600, 1000000⟩, [.tls .AWS_MTLS_STATUS_SUCCESS])]).2
    ∧ TlsMonitorEffect.noEffect
        ≠ TlsMonitorEffect.shutdown IoErrorCode.AWS_IO_CHANNEL_TLS_TIMEOUT :=
  ⟨by decide, by decide,
    tls_monitor_inert_when_not_ongoing ⟨1000, 100⟩
      [(⟨100, 600⟩, [.tls .AWS_MTLS_STATUS_SUCCESS]),
       (⟨600, 1000000⟩, [.tls .AWS_MTLS_STATUS_SUCCESS])] (by decide)
      TlsMonitorEffect.noEffect (by decide)
      IoErrorCode.AWS_IO_CHANNEL_TLS_TIMEOUT⟩

/-- C3 counterexample: the field uses 0 as its not-yet-set sentinel, so the
claim fails when the first observing interval ends at time 0. From a fresh
watchdog, the first process call observes an Ongoing TLS record in an
interval with `end_time_ms = 0` and assigns that end time (0) to the field
— yet a second call, with `end_time_ms = 5`, changes the field to 5,
contradicting "no later process call changes it". -/
theorem tls_monitor_start_restamped_counterexample :
    (tlsMonitorRun (aws_crt_statistics_handler_new_tls_monitor ⟨1000⟩)
        [(⟨0, 0⟩, [.tls .AWS_MTLS_STATUS_ONGOING])]).1.tls_start_time_ms = 0
    ∧ (tlsMonitorRun (aws_crt_statistics_handler_new_tls_monitor ⟨1000⟩)
        [(⟨0, 0⟩, [.tls .AWS_MTLS_STATUS_ONGOING]),
         (⟨0, 5⟩, [.tls .AWS_MTLS_STATUS_ONGOING])]).1.tls_start_time_ms = 5
    := by decide

/-- C3 amended: provided the first process call that observes a TLS record
with a non-None handshake status delivers an interval whose `end_time_ms`
is non-zero (0 being the field's not-yet-set sentinel), the field
`tls_start_time_ms` is set exactly once across the watchdog's lifetime: it
is 0 before that call, is assigned that interval's `end_time_ms` by it, and
no later process call changes it. -/
theorem tls_monitor_start_stamped_once
    (options : aws_tls_monitor_options)
    (pre : List (aws_crt_statistics_sample_interval × List StatRecord))
    (ck : aws_crt_statistics_sample_interval × List StatRecord)
    (post : List (aws_crt_statistics_sample_interval × List StatRecord))
    (hpre : ∀ c ∈ pre, observesHandshake c.2 = false)
    (hk : observesHandshake ck.2 = true)
    (hend : ck.1.end_time_ms ≠ 0) :
    (tlsMonitorRun (aws_crt_statistics_handler_new_tls_monitor options)
        pre).1.tls_start_time_ms = 0
    ∧ (tlsMonitorRun (aws_crt_statistics_handler_new_tls_monitor options)
        (pre ++ [ck])).1.tls_start_time_ms = ck.1.end_time_ms
    ∧ (tlsMonitorRun (aws_crt_statistics_handler_new_tls_monitor options)
        (pre ++ ck :: post)).1.tls_start_time_ms = ck.1.end_time_ms := by
  rcases ck with ⟨itv, sl⟩
  dsimp only at hk hend ⊢
  have h0 : (tlsMonitorRun (aws_crt_statistics_handler_new_tls_monitor
      options) pre).1.tls_start_time_ms = 0 :=
    run_start_preserved_no_observe _ pre hpre
  have h2 : (tlsMonitorRun (aws_crt_statistics_handler_new_tls_monitor
      options) (pre ++ [(itv, sl)])).1.tls_start_time_ms
      = itv.end_time_ms := by
    rw [run_fst_append]
    exact process_start_stamps _ itv sl h0 hk
  refine ⟨h0, h2, ?_⟩
  have hsplit : pre ++ (itv, sl) :: post = (pre ++ [(itv, sl)]) ++ post := by
    simp
  rw [hsplit, run_fst_append]
  rw [run_start_preserved_of_ne_zero _ post (by rw [h2]; exact hend), h2]

/-- C3 amended witness: a quiet socket-only interval, then an Ongoing
observation at end-time 100, then a further Ongoing interval at end-time
600: the field is 0, then 100, and stays 100. -/
theorem tls_monitor_start_stamped_once_witness :
    (tlsMonitorRun (aws_crt_statistics_handler_new_tls_monitor ⟨1000⟩)
        [(⟨0, 50⟩, [.socket 1 2])]).1.tls_start_time_ms = 0
    ∧ (tlsMonitorRun (aws_crt_statistics_handler_new_tls_monitor ⟨1000⟩)
        ([(⟨0, 50⟩, [.socket 1 2])]
          ++ [(⟨50, 100⟩, [.tls .AWS_MTLS_STATUS_ONGOING])])).1.tls_start_time_ms
        = (100 : Nat)
    ∧ (tlsMonitorRun (aws_crt_statistics_handler_new_tls_monitor ⟨1000⟩)
        ([(⟨0, 50⟩, [.socket 1 2])]
          ++ (⟨50, 100⟩, [.tls .AWS_MTLS_STATUS_ONGOING])
            :: [(⟨100, 600⟩, [.tls .AWS_MTLS_STATUS_ONGOING])])).1.tls_start_time_ms
        = (100 : Nat) :=
  tls_monitor_start_stamped_once ⟨1000⟩
    [(⟨0, 50⟩, [.socket 1 2])]
    (⟨50, 100⟩, [.tls .AWS_MTLS_STATUS_ONGOING])
    [(⟨100, 600⟩, [.tls .AWS_MTLS_STATUS_ONGOING])]
    (by decide) (by decide) (by decide)

/-- C4 counterexample: after the start time is stamped at 100, delivering
an interval with `end_time_ms = 50 < 100` whose TLS record reads Success
returns silently (no fatal assertion), because the guard at statistics.c
line 200 returns before the assertion whenever the last status is not
Ongoing; the claim's unconditional "triggers the fatal invariant check" is
therefore false. -/
theorem tls_monitor_no_assert_counterexample :
    (tlsMonitorRun (aws_crt_statistics_handler_new_tls_monitor ⟨1000⟩)
        [(⟨0, 100⟩, [.tls .AWS_MTLS_STATUS_ONGOING])]).1.tls_start_time_ms
      = 100
    ∧ (50 : Nat) < 100
    ∧ (s_tls_monitor_process_statistics
        (tlsMonitorRun (aws_crt_statistics_handler_new_tls_monitor ⟨1000⟩)
          [(⟨0, 100⟩, [.tls .AWS_MTLS_STATUS_ONGOING])]).1
        ⟨0, 50⟩ [.tls .AWS_MTLS_STATUS_SUCCESS]).2
      = TlsMonitorEffect.noEffect := by decide

/-- C4 amended: after a start time has been stamped (the field is
non-zero), delivering an interval whose `end_time_ms` is less than
`tls_start_time_ms` triggers the fatal invariant check rather than a
silent miscalculation, whenever the elapsed-time computation would be
reached — that is, when the timeout is non-zero and the last-observed TLS
status is Ongoing (otherwise the call returns before the assertion). -/
theorem tls_monitor_nonmonotone_fatal
    (impl : aws_statistics_handler_tls_monitor_impl)
    (interval : aws_crt_statistics_sample_interval)
    (stats_list : List StatRecord)
    (h0 : impl.tls_start_time_ms ≠ 0)
    (h1 : impl.tls_timeout_ms ≠ 0)
    (h2 : lastTlsStatus stats_list
      = aws_tls_negotiation_status.AWS_MTLS_STATUS_ONGOING)
    (h3 : interval.end_time_ms < impl.tls_start_time_ms) :
    (s_tls_monitor_process_statistics impl interval stats_list).2
      = TlsMonitorEffect.fatalAssert := by
  unfold s_tls_monitor_process_statistics
  dsimp only
  split
  · rename_i hcond
    exfalso
    rcases hcond with h | h
    · exact h1 h
    · exact h (by rw [tlsScan_fst_lastTlsStatus]; exact h2)
  · split
    · rfl
    · rename_i hcond hlt
      exfalso
      apply hlt
      rw [tlsScan_snd_of_ne_zero _ _ _ _ h0]
      exact h3

/-- C4 amended witness: a watchdog with timeout 1000 ms and stamped start
100, fed an Ongoing interval that ends at 50, hits the fatal assertion. -/
theorem tls_monitor_nonmonotone_fatal_witness :
    (s_tls_monitor_process_statistics ⟨1000, 100⟩ ⟨0, 50⟩
        [.tls .AWS_MTLS_STATUS_ONGOING]).2
      = TlsMonitorEffect.fatalAssert :=
  tls_monitor_nonmonotone_fatal ⟨1000, 100⟩ ⟨0, 50⟩
    [.tls .AWS_MTLS_STATUS_ONGOING]
    (by decide) (by decide) (by decide) (by decide)

/-- C7 witness: a concrete three-slot chain (handler 1, NULL, handler 2)
delivers the identical arguments to handlers 1 and 2 in order, skipping the
NULL slot. -/
theorem chain_process_fanout_witness :
    s_chain_process_statistics [some 1, none, some 2] ⟨0, 100⟩
        [StatRecord.other] (7 : Nat)
      = [ProcessCall.mk 1 ⟨0, 100⟩ [StatRecord.other] 7,
         ProcessCall.mk 2 ⟨0, 100⟩ [StatRecord.other] 7] :=
  (chain_process_fanout [some 1, none, some 2] ⟨0, 100⟩
      [StatRecord.other] (7 : Nat)).trans (by decide)

/-- C8 witness: destroying a concrete three-slot chain (handler 1, NULL,
handler 2) destroys handler 1 exactly as often as it occurs in the member
list — once. -/
theorem chain_destroy_each_member_once_witness :
    (s_chain_destroy [some 1, none, some 2]).count
        (ChainDestroyEvent.destroyMember (1 : Nat))
      = ([some 1, none, some 2] : List (Option Nat)).count (some 1) :=
  (chain_destroy_each_member_once [some 1, none, some 2]).1 1
